import Mathlib

/-!
Shallow embedding of `src/app/main.py` (VoiceHackathon): the RAG activation
workflow `process_rag` and the `/talk` endpoint `handle_conversation`.

The upstream HTTP API is modelled as an environment that fixes the outcome of
each upstream call (the POST that submits indexing, the n-th GET of indexing
status, the GET of the agent configuration, and the PUT that writes it back).
Each outcome is either a transport fault (the `requests` call raises), or a
response with a status code and a body whose `.json()` parse may itself fault.

Python exceptions are modelled explicitly.  Two facts of the Python runtime
matter and are reflected faithfully:
  * `fastapi.HTTPException` is a subclass of `Exception`, so the blanket
    `except Exception as e: raise HTTPException(status_code=500, detail=str(e))`
    at the bottom of both functions catches the `HTTPException`s raised inside
    the `try` block and re-wraps them with status code 500;
    `str` of a starlette/fastapi `HTTPException` renders as
    "{status_code}: {detail}".
  * line 69 is `await time.sleep(5)`: `time.sleep(5)` returns `None`, and
    awaiting `None` raises
    `TypeError("object NoneType can't be used in 'await' expression")`,
    so the polling loop can never start a second iteration.
-/

namespace VoiceHackathon

/-- Python exception values the embedded code can raise. -/
inductive Exc where
  | http (status_code : Nat) (detail : String)
  | typeError (msg : String)
  | indexError (msg : String)
  | requestError (msg : String)
  | jsonError (msg : String)
deriving DecidableEq, Repr

/-- Python `str(e)` for the exceptions above.  A starlette/fastapi
`HTTPException` renders as "{status_code}: {detail}"; the others carry their
message. -/
def strExc : Exc → String
  | .http c d => toString c ++ ": " ++ d
  | .typeError m => m
  | .indexError m => m
  | .requestError m => m
  | .jsonError m => m

/-- Outcome of calling `.json()` on a response: either the parse raises, or it
yields a parsed value. -/
inductive JsonBody (α : Type) where
  | malformed (msg : String)
  | val (a : α)
deriving DecidableEq, Repr

/-- Outcome of one upstream `requests` call: either the call itself raises
(network fault), or a response arrives with a status code and a body. -/
inductive CallOutcome (α : Type) where
  | fault (msg : String)
  | resp (status_code : Nat) (body : JsonBody α)
deriving DecidableEq, Repr

/-- Evaluating `.json()` on a response body. -/
def getJson {α : Type} : JsonBody α → Except Exc α
  | .malformed m => .error (.jsonError m)
  | .val a => .ok a

/-- One entry of the agent configuration's knowledge-base list: an `id`, an
optional `usage_mode` (the assignment `kb[i]["usage_mode"] = "auto"` adds the
key when absent), and the entry's remaining fields, kept opaque. -/
structure KbDoc where
  id : String
  usage_mode : Option String
  extra : List (String × String)
deriving DecidableEq, Repr

/-- The RAG sub-object written at `agent_config["agent"]["prompt"]["rag"]`. -/
structure RagObj where
  enabled : Bool
  embedding_model : String
  max_documents_length : Int
deriving DecidableEq, Repr

/-- The `prompt` sub-object: the RAG sub-object (absent or arbitrary in the
fetched configuration; replaced wholesale by the workflow), the knowledge-base
list, and the remaining fields, kept opaque. -/
structure Prompt where
  rag : Option RagObj
  knowledge_base : List KbDoc
  extra : List (String × String)
deriving DecidableEq, Repr

/-- The `agent` sub-object of the configuration. -/
structure Agent where
  prompt : Prompt
  extra : List (String × String)
deriving DecidableEq, Repr

/-- The agent configuration fetched from (and written back to) upstream.
Fields not touched by the workflow are kept as opaque key/value lists at each
nesting level, so frame (non-interference) properties can be stated. -/
structure AgentConfig where
  agent : Agent
  extra : List (String × String)
deriving DecidableEq, Repr

/-- `RAGRequest` (pydantic model, main.py lines 21-26), defaults included. -/
structure RAGRequest where
  document_id : String
  agent_id : String
  api_key : String
  embedding_model : String := "e5_mistral_7b_instruct"
  max_documents_length : Int := 10000
deriving DecidableEq, Repr

/-- Environment fixing the outcome of each upstream call `process_rag` can
make.  `statusCall n` is the outcome of the (n+1)-st indexing-status GET; its
parsed value is `.json().get("status")`, an optional string.  The bodies of
the POST and PUT responses are never parsed by the code. -/
structure RagEnv where
  indexCall : CallOutcome Unit
  statusCall : Nat → CallOutcome (Option String)
  agentCall : CallOutcome AgentConfig
  updateCall : CallOutcome Unit

/-- The upstream calls `process_rag` makes, in order, with the PUT body. -/
inductive UpCall where
  | postIndex
  | getStatus
  | getAgent
  | putAgent (body : AgentConfig)
deriving DecidableEq, Repr

/-- What a call to `process_rag` produces: the success dict
`{"status": ..., "message": ...}`, or the `HTTPException(code, detail)` that
escapes it. -/
inductive RagResult where
  | success (status message : String)
  | failure (status_code : Nat) (detail : String)
deriving DecidableEq, Repr

/-- main.py line 49: `max_retries = 10`. -/
def max_retries : Nat := 10

/-- main.py line 69, `await time.sleep(5)`: `time.sleep` returns `None`, and
awaiting `None` raises a `TypeError`; the 5-second wait itself has no
observable effect in this model. -/
def awaitTimeSleep5 : Except Exc Unit :=
  .error (.typeError "object NoneType can\x27t be used in \x27await\x27 expression")

/-- main.py lines 51-74, the status-polling `while retry_count < max_retries`
loop, with fuel `max_retries - retry_count`.  Returns the loop's outcome
(`.ok ()` means it broke out on status SUCCEEDED) and the number of status
GETs performed.  The post-loop `if retry_count >= max_retries` check (lines
71-74) fires exactly when the loop exhausts its iterations without breaking,
so it is folded into the fuel-0 case. -/
def pollStatus (env : RagEnv) : Nat → Nat → Except Exc Unit × Nat
  | 0, n => (.error (.http 408 "Timeout waiting for document indexing"), n)
  | fuel + 1, n =>
    match env.statusCall n with
    | .fault m => (.error (.requestError m), n + 1)
    | .resp code body =>
      if code ≠ 200 then
        (.error (.http code "Failed to check indexing status"), n + 1)
      else
        match getJson body with
        | .error e => (.error e, n + 1)
        | .ok status =>
          if status = some "SUCCEEDED" then
            (.ok (), n + 1)
          else if status = some "FAILED" then
            (.error (.http 400 "Failed to index document"), n + 1)
          else
            match awaitTimeSleep5 with
            | .error e => (.error e, n + 1)
            | .ok _ => pollStatus env fuel (n + 1)

/-- main.py lines 94-98: replace `agent_config["agent"]["prompt"]["rag"]`. -/
def setRag (req : RAGRequest) (cfg : AgentConfig) : AgentConfig :=
  { cfg with agent := { cfg.agent with prompt := { cfg.agent.prompt with
      rag := some { enabled := true,
                    embedding_model := req.embedding_model,
                    max_documents_length := req.max_documents_length } } } }

/-- main.py lines 101-104: `for i, doc in enumerate(kb): if doc["id"] ==
request.document_id: kb[i]["usage_mode"] = "auto"`.  The in-place loop updates
each element independently, which is elementwise `map`. -/
def updateUsageMode (document_id : String) (kb : List KbDoc) : List KbDoc :=
  kb.map fun doc =>
    if doc.id = document_id then { doc with usage_mode := some "auto" } else doc

/-- main.py lines 93-104: the in-memory mutation of the fetched
configuration. -/
def mutateConfig (req : RAGRequest) (cfg : AgentConfig) : AgentConfig :=
  let cfg1 := setRag req cfg
  { cfg1 with agent := { cfg1.agent with prompt := { cfg1.agent.prompt with
      knowledge_base :=
        updateUsageMode req.document_id cfg1.agent.prompt.knowledge_base } } }

/-- main.py lines 30-119: the body of `process_rag`'s `try` block.  Returns
the raised exception or the success dict's two fields, together with the list
of upstream calls performed. -/
def process_rag_body (req : RAGRequest) (env : RagEnv) :
    Except Exc (String × String) × List UpCall :=
  match env.indexCall with
  | .fault m => (.error (.requestError m), [.postIndex])
  | .resp code _body =>
    if code ≠ 200 then
      (.error (.http code "Failed to index document"), [.postIndex])
    else
      match pollStatus env max_retries 0 with
      | (.error e, n) => (.error e, .postIndex :: List.replicate n .getStatus)
      | (.ok _, n) =>
        let polled := UpCall.postIndex :: List.replicate n .getStatus
        match env.agentCall with
        | .fault m => (.error (.requestError m), polled ++ [.getAgent])
        | .resp acode abody =>
          if acode ≠ 200 then
            (.error (.http acode "Failed to get agent configuration"),
              polled ++ [.getAgent])
          else
            match getJson abody with
            | .error e => (.error e, polled ++ [.getAgent])
            | .ok agent_config =>
              let newConfig := mutateConfig req agent_config
              match env.updateCall with
              | .fault m =>
                (.error (.requestError m),
                  polled ++ [.getAgent, .putAgent newConfig])
              | .resp ucode _ubody =>
                if ucode ≠ 200 then
                  (.error (.http ucode "Failed to update agent configuration"),
                    polled ++ [.getAgent, .putAgent newConfig])
                else
                  (.ok ("success", "RAG configuration completed successfully"),
                    polled ++ [.getAgent, .putAgent newConfig])

/-- main.py lines 121-122: `except Exception as e:
raise HTTPException(status_code=500, detail=str(e))`.  Every exception raised
in the `try` block — the intended `HTTPException` aborts included, since
`HTTPException` subclasses `Exception` — is re-wrapped with code 500. -/
def wrapResult : Except Exc (String × String) → RagResult
  | .ok sm => .success sm.1 sm.2
  | .error e => .failure 500 (strExc e)

/-- main.py lines 29-122: `process_rag`, returning its result and the list of
upstream calls it performed. -/
def process_rag (req : RAGRequest) (env : RagEnv) : RagResult × List UpCall :=
  let rt := process_rag_body req env
  (wrapResult rt.1, rt.2)

/-- `Message` (main.py lines 10-12). -/
structure Message where
  role : String
  content : String
deriving DecidableEq, Repr

/-- `ConversationRequest` (main.py lines 15-18). -/
structure ConversationRequest where
  messages : List Message
  agent_id : String
  api_key : String
deriving DecidableEq, Repr

/-- The parsed JSON of the upstream conversation response: `document_id` read
via `.get`, the `rag_status` key (absent upstream; added by the handler), and
the remaining fields, kept opaque. -/
structure ConvData where
  document_id : Option String
  rag_status : Option String
  extra : List (String × String)
deriving DecidableEq, Repr

/-- Environment for `handle_conversation`: the upstream conversation POST and
the environment of the nested `process_rag` run. -/
structure TalkEnv where
  convCall : CallOutcome ConvData
  rag : RagEnv

/-- What a call to `handle_conversation` produces: the (possibly annotated)
conversation data, or the `HTTPException` that escapes it. -/
inductive TalkResult where
  | ok (data : ConvData)
  | failure (status_code : Nat) (detail : String)
deriving DecidableEq, Repr

/-- Python `request.messages[-1]`: the last element, or `IndexError` on the
empty list. -/
def listLastPy {α : Type} (xs : List α) : Except Exc α :=
  match xs.getLast? with
  | some a => .ok a
  | none => .error (.indexError "list index out of range")

/-- main.py line 152: `last_message.content.lower() in ["goodbye", "bye",
"end"]`. -/
def isFarewell (content : String) : Bool :=
  ["goodbye", "bye", "end"].contains content.toLower

/-- main.py lines 127-165: the body of `handle_conversation`'s `try` block. -/
def handle_conversation_body (req : ConversationRequest) (env : TalkEnv) :
    Except Exc ConvData :=
  match env.convCall with
  | .fault m => .error (.requestError m)
  | .resp code body =>
    if code ≠ 200 then
      .error (.http code "Failed to process conversation")
    else
      match getJson body with
      | .error e => .error e
      | .ok conversation_data =>
        match listLastPy req.messages with
        | .error e => .error e
        | .ok last_message =>
          if isFarewell last_message.content then
            match conversation_data.document_id with
            | some doc_id =>
              let rag_request : RAGRequest :=
                { document_id := doc_id,
                  agent_id := req.agent_id,
                  api_key := req.api_key }
              match process_rag rag_request env.rag with
              | (.failure c d, _) => .error (.http c d)
              | (.success _ _, _) =>
                .ok { conversation_data with rag_status := some "processed" }
            | none => .ok conversation_data
          else
            .ok conversation_data

/-- main.py lines 126-168: `handle_conversation`, with its own
`except Exception` boundary (lines 167-168). -/
def handle_conversation (req : ConversationRequest) (env : TalkEnv) : TalkResult :=
  match handle_conversation_body req env with
  | .ok d => .ok d
  | .error e => .failure 500 (strExc e)

/-! ### Concrete environments and configurations used by witnesses and
counter-evaluations -/

/-- A sample fetched configuration: knowledge base `[{id:"a"},{id:"b"}]`, in
line with the spec's worked example. -/
def cfgW : AgentConfig :=
  { agent :=
      { prompt :=
          { rag := none,
            knowledge_base :=
              [ { id := "a", usage_mode := none, extra := [("name", "docA")] },
                { id := "b", usage_mode := none, extra := [("name", "docB")] } ],
            extra := [("llm", "gpt")] },
        extra := [("first_message", "hi")] },
    extra := [("agent_id", "agent1")] }

/-- A sample request targeting document "b". -/
def reqW : RAGRequest :=
  { document_id := "b", agent_id := "agent1", api_key := "k" }

/-- Environment where every upstream call returns 200 and the first status
poll reports SUCCEEDED. -/
def successEnvW (cfg : AgentConfig) : RagEnv where
  indexCall := .resp 200 (.val ())
  statusCall := fun _ => .resp 200 (.val (some "SUCCEEDED"))
  agentCall := .resp 200 (.val cfg)
  updateCall := .resp 200 (.val ())

/-- Environment where the submit-indexing POST is rejected with 503. -/
def envRejectIndex : RagEnv where
  indexCall := .resp 503 (.val ())
  statusCall := fun _ => .resp 200 (.val (some "SUCCEEDED"))
  agentCall := .resp 200 (.val cfgW)
  updateCall := .resp 200 (.val ())

/-- Environment where the status polls report PENDING three times and then
SUCCEEDED, all with code 200. -/
def envPendingThenSucceeded : RagEnv where
  indexCall := .resp 200 (.val ())
  statusCall := fun n =>
    .resp 200 (.val (some (if n < 3 then "PENDING" else "SUCCEEDED")))
  agentCall := .resp 200 (.val cfgW)
  updateCall := .resp 200 (.val ())

/-- Environment where the first status poll reports FAILED with code 200. -/
def envFailedStatus : RagEnv where
  indexCall := .resp 200 (.val ())
  statusCall := fun _ => .resp 200 (.val (some "FAILED"))
  agentCall := .resp 200 (.val cfgW)
  updateCall := .resp 200 (.val ())

/-- Environment where every status poll reports PENDING with code 200. -/
def envAlwaysPending : RagEnv where
  indexCall := .resp 200 (.val ())
  statusCall := fun _ => .resp 200 (.val (some "PENDING"))
  agentCall := .resp 200 (.val cfgW)
  updateCall := .resp 200 (.val ())

/-! ### Shared lemmas -/

/-- Evaluation of the whole workflow on the success path: all four calls
return 200 and the first status poll reports SUCCEEDED.  The PUT body is the
mutated configuration and the result is the success dict. -/
theorem process_rag_success_run (req : RAGRequest) (cfg : AgentConfig)
    (env : RagEnv) (b0 b3 : JsonBody Unit)
    (h1 : env.indexCall = .resp 200 b0)
    (h2 : env.statusCall 0 = .resp 200 (.val (some "SUCCEEDED")))
    (h3 : env.agentCall = .resp 200 (.val cfg))
    (h4 : env.updateCall = .resp 200 b3) :
    process_rag req env =
      (.success "success" "RAG configuration completed successfully",
       [.postIndex, .getStatus, .getAgent, .putAgent (mutateConfig req cfg)]) := by
  have hp : pollStatus env max_retries 0 = (.ok (), 1) := by
    rw [show max_retries = 9 + 1 from rfl]
    simp [pollStatus, h2, getJson]
  simp [process_rag, process_rag_body, wrapResult, getJson, h1, h3, h4, hp,
    List.replicate]

/-- The knowledge-base update is elementwise: the entry at each position is
rewritten independently of the rest of the list. -/
theorem updateUsageMode_getElem (document_id : String) (kb : List KbDoc)
    (i : Nat) (d : KbDoc) (hd : kb[i]? = some d) :
    (updateUsageMode document_id kb)[i]? =
      some (if d.id = document_id
            then { d with usage_mode := some "auto" } else d) := by
  simp [updateUsageMode, List.getElem?_map, hd]

/-- When no knowledge-base entry matches the document id, the update loop
leaves the list unchanged. -/
theorem updateUsageMode_no_match (document_id : String) (kb : List KbDoc)
    (h : ∀ d ∈ kb, d.id ≠ document_id) :
    updateUsageMode document_id kb = kb := by
  unfold updateUsageMode
  induction kb with
  | nil => rfl
  | cons d tl ih =>
    simp only [List.map_cons]
    rw [if_neg (h d (by simp)), ih (fun x hx => h x (by simp [hx]))]

/-! ### C1 -/

/-- C1 (code bug): with the submit-indexing POST rejected (status 503), the
code makes no further upstream call — but `HTTPException(503, "Failed to index
document")` is caught by the blanket `except Exception` and re-raised as code
500 with detail "503: Failed to index document", not as a failure carrying
status 503 and message "Failed to index document" as the claim states. -/
theorem index_reject_actual_behavior :
    process_rag reqW envRejectIndex =
      (.failure 500 "503: Failed to index document", [.postIndex]) := by
  decide

/-! ### C3 -/

/-- C3 (code bug): with status polls PENDING, PENDING, PENDING, SUCCEEDED (all
code 200), the code makes exactly one status call, then `await time.sleep(5)`
raises `TypeError`, which surfaces as failure 500; the agent configuration is
never fetched, contrary to the claimed 4 polls followed by the fetch. -/
theorem polling_pending_actual_behavior :
    process_rag reqW envPendingThenSucceeded =
      (.failure 500 "object NoneType can\x27t be used in \x27await\x27 expression",
       [.postIndex, .getStatus]) := by
  decide

/-! ### C4 -/

/-- C4 (code bug): with the first status poll reporting FAILED (code 200), the
remaining retries are indeed not consumed (a single status call), but
`HTTPException(400, "Failed to index document")` is caught by the blanket
`except Exception` and surfaces as failure 500 with detail "400: Failed to
index document", not as failure 400 with message "Failed to index document" as
the claim states. -/
theorem polling_failed_actual_behavior :
    process_rag reqW envFailedStatus =
      (.failure 500 "400: Failed to index document",
       [.postIndex, .getStatus]) := by
  decide

/-! ### C5 -/

/-- C5 (code bug): with every status poll PENDING (code 200), the code makes a
single status call — `await time.sleep(5)` then raises `TypeError`, surfacing
as failure 500 — instead of the claimed 10 polls followed by failure 408. -/
theorem polling_timeout_actual_behavior :
    process_rag reqW envAlwaysPending =
      (.failure 500 "object NoneType can\x27t be used in \x27await\x27 expression",
       [.postIndex, .getStatus]) := by
  decide

/-! ### C2 -/

/-- C2: on a successful run (all four calls return 200, first poll SUCCEEDED;
at most one knowledge-base entry carries the document id), the configuration
sent by the PUT call is the fetched one except that the RAG sub-object is set
to enabled with the request's embedding model and length, and each entry whose
id equals the document id has its usage_mode set to "auto"; every other field
— the top-level, agent-level and prompt-level fields and every non-matching
knowledge-base entry — is unchanged. -/
theorem rag_write_back_frame (req : RAGRequest) (cfg : AgentConfig)
    (env : RagEnv) (b0 b3 : JsonBody Unit)
    (h1 : env.indexCall = .resp 200 b0)
    (h2 : env.statusCall 0 = .resp 200 (.val (some "SUCCEEDED")))
    (h3 : env.agentCall = .resp 200 (.val cfg))
    (h4 : env.updateCall = .resp 200 b3)
    (huniq : (cfg.agent.prompt.knowledge_base.filter
        (fun d => d.id = req.document_id)).length ≤ 1) :
    ∃ b : AgentConfig,
      (process_rag req env).2 =
        [.postIndex, .getStatus, .getAgent, .putAgent b] ∧
      b.extra = cfg.extra ∧
      b.agent.extra = cfg.agent.extra ∧
      b.agent.prompt.extra = cfg.agent.prompt.extra ∧
      b.agent.prompt.rag =
        some { enabled := true, embedding_model := req.embedding_model,
               max_documents_length := req.max_documents_length } ∧
      b.agent.prompt.knowledge_base.length =
        cfg.agent.prompt.knowledge_base.length ∧
      (∀ i : Nat, ∀ d : KbDoc,
        cfg.agent.prompt.knowledge_base[i]? = some d →
        b.agent.prompt.knowledge_base[i]? =
          some (if d.id = req.document_id
                then { d with usage_mode := some "auto" } else d)) := by
  refine ⟨mutateConfig req cfg, ?_, rfl, rfl, rfl, rfl, ?_, ?_⟩
  · rw [process_rag_success_run req cfg env b0 b3 h1 h2 h3 h4]
  · show (updateUsageMode req.document_id cfg.agent.prompt.knowledge_base).length = _
    simp [updateUsageMode]
  · intro i d hd
    exact updateUsageMode_getElem req.document_id
      cfg.agent.prompt.knowledge_base i d hd

/-- Closed instance of the frame theorem at the spec's worked example
(knowledge base [{id:"a"},{id:"b"}], document id "b"). -/
theorem rag_write_back_frame_witness :
    (cfgW.agent.prompt.knowledge_base.filter
        (fun d => d.id = reqW.document_id)).length ≤ 1 ∧
    ∃ b : AgentConfig,
      (process_rag reqW (successEnvW cfgW)).2 =
        [.postIndex, .getStatus, .getAgent, .putAgent b] ∧
      b.extra = cfgW.extra ∧
      b.agent.extra = cfgW.agent.extra ∧
      b.agent.prompt.extra = cfgW.agent.prompt.extra ∧
      b.agent.prompt.rag =
        some { enabled := true, embedding_model := reqW.embedding_model,
               max_documents_length := reqW.max_documents_length } ∧
      b.agent.prompt.knowledge_base.length =
        cfgW.agent.prompt.knowledge_base.length ∧
      (∀ i : Nat, ∀ d : KbDoc,
        cfgW.agent.prompt.knowledge_base[i]? = some d →
        b.agent.prompt.knowledge_base[i]? =
          some (if d.id = reqW.document_id
                then { d with usage_mode := some "auto" } else d)) :=
  ⟨by decide,
   rag_write_back_frame reqW cfgW (successEnvW cfgW) (.val ()) (.val ())
     rfl rfl rfl rfl (by decide)⟩

/-! ### C6 -/

/-- C6: when all four upstream calls return 200 and the first status poll
reports SUCCEEDED, `process_rag` returns the success dict, with no error
fields. -/
theorem rag_success_result (req : RAGRequest) (cfg : AgentConfig)
    (env : RagEnv) (b0 b3 : JsonBody Unit)
    (h1 : env.indexCall = .resp 200 b0)
    (h2 : env.statusCall 0 = .resp 200 (.val (some "SUCCEEDED")))
    (h3 : env.agentCall = .resp 200 (.val cfg))
    (h4 : env.updateCall = .resp 200 b3) :
    (process_rag req env).1 =
      .success "success" "RAG configuration completed successfully" := by
  rw [process_rag_success_run req cfg env b0 b3 h1 h2 h3 h4]

/-- Closed instance of the end-to-end success theorem. -/
theorem rag_success_result_witness :
    (successEnvW cfgW).indexCall = .resp 200 (.val ()) ∧
    (successEnvW cfgW).statusCall 0 = .resp 200 (.val (some "SUCCEEDED")) ∧
    (successEnvW cfgW).agentCall = .resp 200 (.val cfgW) ∧
    (successEnvW cfgW).updateCall = .resp 200 (.val ()) ∧
    (process_rag reqW (successEnvW cfgW)).1 =
      .success "success" "RAG configuration completed successfully" :=
  ⟨rfl, rfl, rfl, rfl,
   rag_success_result reqW cfgW (successEnvW cfgW) (.val ()) (.val ())
     rfl rfl rfl rfl⟩

/-! ### C7 -/

/-- C7: whatever the environment does — network faults, malformed JSON,
upstream rejections — `process_rag` yields either the success dict or a
structured failure whose code is exactly 500 and whose detail is the Python
rendering of the caught exception; no exception other than that structured
failure escapes. -/
theorem rag_catch_all_500 (req : RAGRequest) (env : RagEnv) :
    (∃ s m, (process_rag req env).1 = .success s m) ∨
    (∃ e : Exc, (process_rag req env).1 = .failure 500 (strExc e)) := by
  have hw : (process_rag req env).1 = wrapResult (process_rag_body req env).1 :=
    rfl
  rw [hw]
  cases h : (process_rag_body req env).1 with
  | ok sm => exact Or.inl ⟨sm.1, sm.2, rfl⟩
  | error e => exact Or.inr ⟨e, rfl⟩

/-! ### C8 -/

/-- C8: when no knowledge-base entry matches the document id (on a successful
run of the other calls), the knowledge-base list is written back unchanged and
the workflow still performs the PUT and returns success: a missing match is
not an error. -/
theorem rag_no_match_not_error (req : RAGRequest) (cfg : AgentConfig)
    (env : RagEnv) (b0 b3 : JsonBody Unit)
    (h1 : env.indexCall = .resp 200 b0)
    (h2 : env.statusCall 0 = .resp 200 (.val (some "SUCCEEDED")))
    (h3 : env.agentCall = .resp 200 (.val cfg))
    (h4 : env.updateCall = .resp 200 b3)
    (hnone : ∀ d ∈ cfg.agent.prompt.knowledge_base, d.id ≠ req.document_id) :
    (process_rag req env).1 =
      .success "success" "RAG configuration completed successfully" ∧
    ∃ b : AgentConfig,
      (process_rag req env).2 =
        [.postIndex, .getStatus, .getAgent, .putAgent b] ∧
      b.agent.prompt.knowledge_base = cfg.agent.prompt.knowledge_base := by
  rw [process_rag_success_run req cfg env b0 b3 h1 h2 h3 h4]
  refine ⟨rfl, mutateConfig req cfg, rfl, ?_⟩
  show updateUsageMode req.document_id cfg.agent.prompt.knowledge_base = _
  exact updateUsageMode_no_match req.document_id
    cfg.agent.prompt.knowledge_base hnone

/-- A request whose document id matches no entry of `cfgW`. -/
def reqNoMatch : RAGRequest :=
  { document_id := "zzz", agent_id := "agent1", api_key := "k" }

/-- Closed instance: document id "zzz" matches neither "a" nor "b". -/
theorem rag_no_match_not_error_witness :
    (∀ d ∈ cfgW.agent.prompt.knowledge_base, d.id ≠ reqNoMatch.document_id) ∧
    ((process_rag reqNoMatch (successEnvW cfgW)).1 =
      .success "success" "RAG configuration completed successfully" ∧
    ∃ b : AgentConfig,
      (process_rag reqNoMatch (successEnvW cfgW)).2 =
        [.postIndex, .getStatus, .getAgent, .putAgent b] ∧
      b.agent.prompt.knowledge_base = cfgW.agent.prompt.knowledge_base) :=
  ⟨by decide,
   rag_no_match_not_error reqNoMatch cfgW (successEnvW cfgW) (.val ()) (.val ())
     rfl rfl rfl rfl (by decide)⟩

/-! ### C9 -/

/-- C9: on a successful run, every knowledge-base entry whose id equals the
document id — not only one of them — appears in the PUT body with usage_mode
"auto". -/
theorem rag_all_matching_entries_auto (req : RAGRequest) (cfg : AgentConfig)
    (env : RagEnv) (b0 b3 : JsonBody Unit)
    (h1 : env.indexCall = .resp 200 b0)
    (h2 : env.statusCall 0 = .resp 200 (.val (some "SUCCEEDED")))
    (h3 : env.agentCall = .resp 200 (.val cfg))
    (h4 : env.updateCall = .resp 200 b3)
    (i : Nat) (d : KbDoc)
    (hd : cfg.agent.prompt.knowledge_base[i]? = some d)
    (hid : d.id = req.document_id) :
    ∃ b : AgentConfig,
      (process_rag req env).2 =
        [.postIndex, .getStatus, .getAgent, .putAgent b] ∧
      b.agent.prompt.knowledge_base[i]? =
        some { d with usage_mode := some "auto" } := by
  rw [process_rag_success_run req cfg env b0 b3 h1 h2 h3 h4]
  refine ⟨mutateConfig req cfg, rfl, ?_⟩
  have h := updateUsageMode_getElem req.document_id
    cfg.agent.prompt.knowledge_base i d hd
  rw [if_pos hid] at h
  exact h

/-- A fetched configuration whose knowledge base holds two entries with the
same id "b". -/
def cfgDup : AgentConfig :=
  { agent :=
      { prompt :=
          { rag := none,
            knowledge_base :=
              [ { id := "b", usage_mode := none, extra := [] },
                { id := "b", usage_mode := none, extra := [] } ],
            extra := [] },
        extra := [] },
    extra := [] }

/-- Closed instance at a knowledge base with a duplicated id: both the entry
at position 0 and the entry at position 1 end up with usage_mode "auto". -/
theorem rag_all_matching_entries_auto_witness :
    (∃ b : AgentConfig,
      (process_rag reqW (successEnvW cfgDup)).2 =
        [.postIndex, .getStatus, .getAgent, .putAgent b] ∧
      b.agent.prompt.knowledge_base[0]? =
        some { id := "b", usage_mode := some "auto", extra := [] }) ∧
    (∃ b : AgentConfig,
      (process_rag reqW (successEnvW cfgDup)).2 =
        [.postIndex, .getStatus, .getAgent, .putAgent b] ∧
      b.agent.prompt.knowledge_base[1]? =
        some { id := "b", usage_mode := some "auto", extra := [] }) :=
  ⟨rag_all_matching_entries_auto reqW cfgDup (successEnvW cfgDup)
     (.val ()) (.val ()) rfl rfl rfl rfl 0
     { id := "b", usage_mode := none, extra := [] } rfl rfl,
   rag_all_matching_entries_auto reqW cfgDup (successEnvW cfgDup)
     (.val ()) (.val ()) rfl rfl rfl rfl 1
     { id := "b", usage_mode := none, extra := [] } rfl rfl⟩

/-! ### C10 -/

/-- C10: a `/talk` request with an empty messages list yields failure 500 even
when the upstream conversation call returns 200 with parseable JSON: the
farewell check evaluates `request.messages[-1]`, which raises `IndexError`
("list index out of range") on an empty list, and the blanket handler converts
it to a 500. -/
theorem talk_empty_messages_500 (agent_id api_key : String) (env : TalkEnv)
    (d : ConvData) (hc : env.convCall = .resp 200 (.val d)) :
    handle_conversation
      { messages := [], agent_id := agent_id, api_key := api_key } env =
      .failure 500 "list index out of range" := by
  simp [handle_conversation, handle_conversation_body, getJson, listLastPy,
    strExc, hc]

/-- A conversation environment whose upstream call returns 200. -/
def talkEnvW : TalkEnv where
  convCall := .resp 200
    (.val { document_id := some "b", rag_status := none, extra := [] })
  rag := successEnvW cfgW

/-- Closed instance of the empty-messages theorem. -/
theorem talk_empty_messages_500_witness :
    talkEnvW.convCall = .resp 200
      (.val { document_id := some "b", rag_status := none, extra := [] }) ∧
    handle_conversation
      { messages := [], agent_id := "agent1", api_key := "k" } talkEnvW =
      .failure 500 "list index out of range" :=
  ⟨rfl,
   talk_empty_messages_500 "agent1" "k" talkEnvW
     { document_id := some "b", rag_status := none, extra := [] } rfl⟩

end VoiceHackathon
